import Mathlib

/-!
Verification of the birdie application against its design document.

The embedding below translates the application code: the Post model
(birdie/models.py), the PostForm validator (birdie/forms.py), and the
update and payment workflows (birdie/views.py). Framework-mediated
behaviour of the configured generic views (object retrieval, form
re-rendering, redirect to success_url) is embedded as the explicit
request functions postUpdateView_get, postUpdateView_post and
paymentView_post.
-/

/-- Embedding of the Post record (models.py, class Post): a single text
field together with the identifier assigned by the record store. -/
structure Post where
  id : Nat
  body : String
deriving DecidableEq

/-- Embedding of the requester identity attached to a request. The code
reads getattr(request.user, "first_name", None); an unauthenticated
requester (AnonymousUser) carries no first_name attribute, so the lookup
yields none for it, which we model with first_name = none. -/
structure Requester where
  is_authenticated : Bool
  first_name : Option String
deriving DecidableEq

/-- Decision of the authorization gate in the update workflow. -/
inductive AuthDecision where
  | allow
  | deny
deriving DecidableEq

/-- Embedding of the authorization gate of PostUpdateView.post
(views.py line 37): deny exactly when the first_name lookup on the
requesting user equals "Martin", allow everyone else. -/
def authorize (req : Requester) : AuthDecision :=
  if req.first_name = some "Martin" then .deny else .allow

/-- Observable responses of the two workflows: Http404, a rendered form
page (the body shown in the form together with its field errors), or a
redirect to a location. -/
inductive Response where
  | notFound
  | renderForm (shownBody : String) (errors : List String)
  | redirect (location : String)
deriving DecidableEq

/-- HTTP status code carried by each response shape: Http404 renders as
404, a (re-)rendered form as 200, a redirect as 302. -/
def Response.status : Response → Nat
  | .notFound => 404
  | .renderForm _ _ => 200
  | .redirect _ => 302

/-- Embedding of record retrieval by identifier from the record store,
the get_object step of the configured UpdateView. -/
def retrieve (store : List Post) (pid : Nat) : Option Post :=
  store.find? (fun p => p.id == pid)

/-- Embedding of the persist step: the form save writes the validated
body onto the record with the given identifier. -/
def updateStore (store : List Post) (pid : Nat) (b : String) : List Post :=
  store.map (fun p => if p.id == pid then { p with body := b } else p)

/-- Embedding of PostForm.clean_body (forms.py lines 11 to 15): reject
the cleaned body when its length is at most 5, raising the
ValidationError message of the source, and return the data unchanged
otherwise. Lengths count characters (Unicode code points), as the
Python len does on text. -/
def clean_body (data : String) : Except String String :=
  if data.length ≤ 5 then .error "Message is too short" else .ok data

/-- Embedding of Post.get_excerpt (models.py lines 8 to 9): the Python
slice self.body[:char] for a nonnegative char, the first char
characters of the body. -/
def Post.get_excerpt (p : Post) (char : Nat) : String :=
  ⟨p.body.data.take char⟩

/-- Embedding of the read path of PostUpdateView (views.py lines 30 to
34 with the GET semantics of the configured UpdateView): retrieve the
post, Http404 when absent, otherwise render the form pre-populated with
the current body. The requester is received but never inspected: the
view overrides only post, so no authorization check runs on read. -/
def postUpdateView_get (store : List Post) (_req : Requester) (pid : Nat) : Response :=
  match retrieve store pid with
  | none => .notFound
  | some p => .renderForm p.body []

/-- Embedding of the write path of PostUpdateView.post (views.py lines
36 to 39 with the POST semantics of the configured UpdateView): the
Martin gate raises Http404 first; then the record is retrieved (Http404
when absent); then the form validates the submitted body, re-rendering
with the field error and persisting nothing on failure; on success the
body is persisted and the response redirects to success_url, the fixed
location "/". Returns the response together with the resulting store. -/
def postUpdateView_post (store : List Post) (req : Requester) (pid : Nat)
    (submitted : String) : Response × List Post :=
  if authorize req = .deny then (.notFound, store)
  else
    match retrieve store pid with
    | none => (.notFound, store)
    | some _ =>
      match clean_body submitted with
      | .error e => (.renderForm submitted [e], store)
      | .ok b => (.redirect "/", updateStore store pid b)

/-- Embedding of the charge request built by PaymentView.post (views.py
lines 43 to 48) and sent to the external charge service. -/
structure ChargeRequest where
  amount : Nat
  currency : String
  description : String
  token : Option String
deriving DecidableEq

/-- Embedding of the charge object answered by the external charge
service; the workflow only reads its identifier. -/
structure Charge where
  id : String
deriving DecidableEq

/-- Embedding of an outbound email as passed to send_mail (views.py
lines 50 to 55): subject, message, sender and recipient list. -/
structure Email where
  subject : String
  message : String
  from_email : String
  recipients : List String
deriving DecidableEq

/-- Embedding of the charge request construction of PaymentView.post:
fixed amount 100, fixed currency "sgd", empty description, and the
token read from the submitted POST data; no other submitted field is
read. -/
def mkChargeRequest (postData : String → Option String) : ChargeRequest :=
  { amount := 100, currency := "sgd", description := "", token := postData "token" }

/-- Embedding of PaymentView.post (views.py lines 42 to 56): invoke the
external charge service on the constructed request; a service error
propagates unhandled, so nothing further runs; on success send the
single confirmation email and redirect to the site root. The success
value lists the emails sent alongside the response. -/
def paymentView_post (svc : ChargeRequest → Except String Charge)
    (postData : String → Option String) : Except String (List Email × Response) :=
  match svc (mkChargeRequest postData) with
  | .error e => .error e
  | .ok charge =>
      .ok ([{ subject := "Payment received",
              message := "Charge " ++ charge.id ++ " succeeded!",
              from_email := "server@example.com",
              recipients := ["admin@example.com"] }],
           .redirect "/")

/-! Helper lemmas shared by the claim theorems below. -/

/-- Validation succeeds, returning the data unchanged, when the length
exceeds 5. -/
theorem clean_body_ok_of_lt (s : String) (h : 5 < s.length) : clean_body s = .ok s := by
  unfold clean_body
  rw [if_neg (by omega)]

/-- Validation fails with the message of the source when the length is
at most 5. -/
theorem clean_body_error_of_le (s : String) (h : s.length ≤ 5) :
    clean_body s = .error "Message is too short" := by
  unfold clean_body
  rw [if_pos h]

/-- The gate denies exactly the requesters whose first_name reads
"Martin". -/
theorem authorize_deny_iff (req : Requester) :
    authorize req = .deny ↔ req.first_name = some "Martin" := by
  unfold authorize
  split
  · next h => simp [h]
  · next h => simp [h]

/-- The gate does not deny a requester not named "Martin". -/
theorem authorize_not_deny (req : Requester) (h : req.first_name ≠ some "Martin") :
    ¬ authorize req = .deny :=
  fun hd => h ((authorize_deny_iff req).mp hd)

/-- The Martin gate fires at the top of the write path: the response is
Http404 and the store is handed back untouched. -/
theorem martin_gate (a : Bool) (store : List Post) (pid : Nat) (s : String) :
    postUpdateView_post store ⟨a, some "Martin"⟩ pid s = (.notFound, store) := rfl

/-- Retrieval after an update finds the record with the new body. -/
theorem retrieve_updateStore (store : List Post) (pid : Nat) (b : String) (p : Post)
    (h : retrieve store pid = some p) :
    retrieve (updateStore store pid b) pid = some { p with body := b } := by
  induction store with
  | nil => simp [retrieve] at h
  | cons q rest ih =>
    unfold retrieve at h
    unfold retrieve updateStore
    rw [List.map_cons]
    by_cases hq : (q.id == pid) = true
    · rw [List.find?_cons_of_pos (p := fun x : Post => x.id == pid) _ hq] at h
      injection h with h2
      subst h2
      rw [if_pos hq]
      exact List.find?_cons_of_pos (p := fun x : Post => x.id == pid) _ hq
    · rw [List.find?_cons_of_neg (p := fun x : Post => x.id == pid) _ hq] at h
      rw [if_neg hq, List.find?_cons_of_neg (p := fun x : Post => x.id == pid) _ hq]
      exact ih h

/-- Claim C1: for every store and every requester whose display name
(the first_name attribute) equals "Martin", the update submit path
signals NotFound, HTTP 404, regardless of the submitted body; and the
authorization gate denies exactly the requesters named "Martin", so no
other requester, unauthenticated ones included, is denied by it. -/
theorem claim_C1 :
    (∀ (a : Bool) (store : List Post) (pid : Nat) (s : String),
        postUpdateView_post store ⟨a, some "Martin"⟩ pid s = (.notFound, store)
        ∧ (postUpdateView_post store ⟨a, some "Martin"⟩ pid s).1.status = 404)
    ∧ (∀ req : Requester, authorize req = .deny ↔ req.first_name = some "Martin") := by
  constructor
  · intro a store pid s
    refine ⟨martin_gate a store pid s, ?_⟩
    rw [martin_gate a store pid s]
    rfl
  · exact authorize_deny_iff

/-- Claim C10: for every requester named "Martin" the write path signals
NotFound before retrieval and validation run: it answers NotFound even
on the empty store, where no record with any identifier exists, for
every submitted body, and the record store comes back unchanged. -/
theorem claim_C10 :
    ∀ (a : Bool) (store : List Post) (pid : Nat) (s : String),
      postUpdateView_post store ⟨a, some "Martin"⟩ pid s = (.notFound, store)
      ∧ retrieve ([] : List Post) pid = none
      ∧ postUpdateView_post ([] : List Post) ⟨a, some "Martin"⟩ pid s
          = (.notFound, ([] : List Post)) := by
  intro a store pid s
  exact ⟨martin_gate a store pid s, rfl, martin_gate a [] pid s⟩

/-- Claim C9: get_excerpt yields the first min(n, length) characters of
the body: its character data is the n-prefix of the body data, its
length is min n (body length), the body decomposes as the excerpt
followed by the remaining characters, and an excerpt of at least the
length of the body is the body itself. -/
theorem claim_C9 :
    ∀ (p : Post) (n : Nat),
      (p.get_excerpt n).data = p.body.data.take n
      ∧ (p.get_excerpt n).length = min n p.body.length
      ∧ p.body.data = (p.get_excerpt n).data ++ p.body.data.drop n
      ∧ p.get_excerpt (p.body.length + n) = p.body := by
  intro p n
  refine ⟨rfl, ?_, ?_, ?_⟩
  · show (p.body.data.take n).length = min n p.body.data.length
    exact List.length_take ..
  · exact (List.take_append_drop n p.body.data).symm
  · show (⟨p.body.data.take (p.body.data.length + n)⟩ : String) = p.body
    rw [List.take_of_length_le (Nat.le_add_right p.body.data.length n)]

/-- Claim C4 counterexample: at the five character input "Hello" the
validator fails, but its ValidationError carries the message "Message
is too short", not the message "too short" that the claim states. -/
theorem claim_C4_counterexample :
    clean_body "Hello" = .error "Message is too short"
    ∧ clean_body "Hello" ≠ .error "too short" := by
  constructor
  · rfl
  · intro h
    rw [show clean_body "Hello" = Except.error "Message is too short" from rfl] at h
    injection h with h2
    exact absurd h2 (by decide)

/-- Claim C4 (amended): the validator succeeds and returns its input
unchanged exactly when the length of the input exceeds 5, and fails
with the ValidationError message "Message is too short" exactly when
the length is at most 5, the empty string included; length counts
Unicode characters, not bytes, as witnessed by a five character input
whose UTF-8 form occupies ten bytes and is nevertheless rejected. -/
theorem claim_C4 :
    (∀ s : String, clean_body s = .ok s ↔ 5 < s.length)
    ∧ (∀ s : String, clean_body s = .error "Message is too short" ↔ s.length ≤ 5)
    ∧ clean_body "" = .error "Message is too short"
    ∧ ("ééééé".length = 5 ∧ "ééééé".utf8ByteSize = 10
        ∧ clean_body "ééééé" = .error "Message is too short") := by
  refine ⟨?_, ?_, rfl, by decide, by decide, rfl⟩
  · intro s
    constructor
    · intro h
      by_contra hlen
      push_neg at hlen
      rw [clean_body_error_of_le s hlen] at h
      simp at h
    · exact clean_body_ok_of_lt s
  · intro s
    constructor
    · intro h
      by_contra hlen
      push_neg at hlen
      rw [clean_body_ok_of_lt s hlen] at h
      simp at h
    · exact clean_body_error_of_le s

/-- Claim C2: for every existing post and every requester not named
"Martin" (unauthenticated requesters included), submitting a body that
passes validation persists exactly the submitted value and answers the
302 redirect to the fixed success location "/". -/
theorem claim_C2 (store : List Post) (req : Requester) (pid : Nat) (p : Post)
    (submitted : String)
    (hname : req.first_name ≠ some "Martin")
    (hpost : retrieve store pid = some p)
    (hvalid : 5 < submitted.length) :
    postUpdateView_post store req pid submitted
      = (.redirect "/", updateStore store pid submitted)
    ∧ retrieve (updateStore store pid submitted) pid = some { p with body := submitted }
    ∧ (Response.redirect "/").status = 302 := by
  have h1 : postUpdateView_post store req pid submitted
      = (.redirect "/", updateStore store pid submitted) := by
    unfold postUpdateView_post
    rw [if_neg (authorize_not_deny req hname), hpost]
    show (match clean_body submitted with
          | .error e => (Response.renderForm submitted [e], store)
          | .ok b => (Response.redirect "/", updateStore store pid b))
        = (Response.redirect "/", updateStore store pid submitted)
    rw [clean_body_ok_of_lt submitted hvalid]
  exact ⟨h1, retrieve_updateStore store pid submitted p hpost, rfl⟩

/-- Claim C2 witness: an unauthenticated requester updates post 1 with
the body "New Body Text!", which is persisted exactly, and the response
is the 302 redirect to "/". -/
theorem claim_C2_witness :
    postUpdateView_post [⟨1, "Old"⟩] ⟨false, none⟩ 1 "New Body Text!"
      = (.redirect "/", updateStore [⟨1, "Old"⟩] 1 "New Body Text!")
    ∧ retrieve (updateStore [⟨1, "Old"⟩] 1 "New Body Text!") 1
        = some ⟨1, "New Body Text!"⟩
    ∧ (Response.redirect "/").status = 302 :=
  claim_C2 [⟨1, "Old"⟩] ⟨false, none⟩ 1 ⟨1, "Old"⟩ "New Body Text!"
    (by decide) rfl (by decide)

/-- Claim C3: for every existing post and every requester not named
"Martin", submitting a body of length at most 5 answers the re-rendered
form carrying the field error, HTTP 200 and no redirect, and the record
store, hence the stored body, is unchanged. -/
theorem claim_C3 (store : List Post) (req : Requester) (pid : Nat) (p : Post)
    (submitted : String)
    (hname : req.first_name ≠ some "Martin")
    (hpost : retrieve store pid = some p)
    (hshort : submitted.length ≤ 5) :
    postUpdateView_post store req pid submitted
      = (.renderForm submitted ["Message is too short"], store)
    ∧ (postUpdateView_post store req pid submitted).1.status = 200
    ∧ (postUpdateView_post store req pid submitted).2 = store := by
  have h1 : postUpdateView_post store req pid submitted
      = (.renderForm submitted ["Message is too short"], store) := by
    unfold postUpdateView_post
    rw [if_neg (authorize_not_deny req hname), hpost]
    show (match clean_body submitted with
          | .error e => (Response.renderForm submitted [e], store)
          | .ok b => (Response.redirect "/", updateStore store pid b))
        = (Response.renderForm submitted ["Message is too short"], store)
    rw [clean_body_error_of_le submitted hshort]
  refine ⟨h1, ?_, ?_⟩
  · rw [h1]
    rfl
  · rw [h1]

/-- Claim C3 witness: a requester named Alice submits the five
character body "Hello" to post 1; the response is the re-rendered form
with the field error at status 200 and the store is untouched. -/
theorem claim_C3_witness :
    postUpdateView_post [⟨1, "Old Body"⟩] ⟨true, some "Alice"⟩ 1 "Hello"
      = (.renderForm "Hello" ["Message is too short"], [⟨1, "Old Body"⟩])
    ∧ (postUpdateView_post [⟨1, "Old Body"⟩] ⟨true, some "Alice"⟩ 1 "Hello").1.status = 200
    ∧ (postUpdateView_post [⟨1, "Old Body"⟩] ⟨true, some "Alice"⟩ 1 "Hello").2
        = [⟨1, "Old Body"⟩] :=
  claim_C3 [⟨1, "Old Body"⟩] ⟨true, some "Alice"⟩ 1 ⟨1, "Old Body"⟩ "Hello"
    (by decide) rfl (by decide)

/-- Claim C5: the read path runs no authorization check: its response
never depends on the requester; for every existing post it renders the
form pre-populated with the current body at status 200, for every
requester, one named "Martin" included; and it signals NotFound exactly
when no post with the identifier exists. -/
theorem claim_C5 (store : List Post) (pid : Nat) :
    (∀ r₁ r₂ : Requester, postUpdateView_get store r₁ pid = postUpdateView_get store r₂ pid)
    ∧ (∀ (r : Requester) (p : Post), retrieve store pid = some p →
        postUpdateView_get store r pid = .renderForm p.body []
        ∧ (postUpdateView_get store r pid).status = 200)
    ∧ (∀ r : Requester, retrieve store pid = none ↔ postUpdateView_get store r pid = .notFound) := by
  refine ⟨fun r₁ r₂ => rfl, ?_, ?_⟩
  · intro r p hp
    have h1 : postUpdateView_get store r pid = .renderForm p.body [] := by
      unfold postUpdateView_get
      rw [hp]
    refine ⟨h1, ?_⟩
    rw [h1]
    rfl
  · intro r
    constructor
    · intro h
      unfold postUpdateView_get
      rw [h]
    · intro h
      cases hs : retrieve store pid with
      | none => rfl
      | some p =>
        unfold postUpdateView_get at h
        rw [hs] at h
        simp at h

/-- Claim C5 witness: a requester named Martin issues the read request
for post 1 and receives the pre-populated form at status 200. -/
theorem claim_C5_witness :
    postUpdateView_get [⟨1, "Hello World"⟩] ⟨true, some "Martin"⟩ 1
      = .renderForm "Hello World" []
    ∧ (postUpdateView_get [⟨1, "Hello World"⟩] ⟨true, some "Martin"⟩ 1).status = 200 :=
  (claim_C5 [⟨1, "Hello World"⟩] 1).2.1 ⟨true, some "Martin"⟩ ⟨1, "Hello World"⟩ rfl

/-- Claim C6: the charge request carries amount exactly 100, currency
exactly "sgd", empty description, and the submitted token field, with
no local validation of the token; two submissions agreeing on the token
field build the same charge request and the payment workflow behaves
identically on them, so no other submitted field influences it. -/
theorem claim_C6 (d₁ d₂ : String → Option String)
    (svc : ChargeRequest → Except String Charge)
    (h : d₁ "token" = d₂ "token") :
    (mkChargeRequest d₁).amount = 100
    ∧ (mkChargeRequest d₁).currency = "sgd"
    ∧ (mkChargeRequest d₁).description = ""
    ∧ (mkChargeRequest d₁).token = d₁ "token"
    ∧ mkChargeRequest d₁ = mkChargeRequest d₂
    ∧ paymentView_post svc d₁ = paymentView_post svc d₂ := by
  have hmk : mkChargeRequest d₁ = mkChargeRequest d₂ := by
    unfold mkChargeRequest
    rw [h]
  refine ⟨rfl, rfl, rfl, rfl, hmk, ?_⟩
  unfold paymentView_post
  rw [hmk]

/-- Claim C6 witness: two submissions sharing the token "tok123" but
differing on every other field drive the payment workflow identically,
and the built charge request carries the fixed amount. -/
theorem claim_C6_witness :
    (mkChargeRequest (fun k => if k = "token" then some "tok123" else none)).amount = 100
    ∧ paymentView_post (fun _ => Except.ok ⟨"ch1"⟩)
          (fun k => if k = "token" then some "tok123" else none)
        = paymentView_post (fun _ => Except.ok ⟨"ch1"⟩) (fun _ => some "tok123") := by
  have h := claim_C6 (fun k => if k = "token" then some "tok123" else none)
      (fun _ => some "tok123") (fun _ => Except.ok ⟨"ch1"⟩) rfl
  exact ⟨h.1, h.2.2.2.2.2⟩

/-- Claim C7: whenever the charge service answers the constructed
request with a charge, the workflow sends exactly one email, with
sender "server@example.com", recipient list containing exactly
"admin@example.com", subject "Payment received" and a message that is
the word Charge, the literal charge identifier and the word succeeded,
and answers the 302 redirect to the site root. -/
theorem claim_C7 (svc : ChargeRequest → Except String Charge)
    (d : String → Option String) (c : Charge)
    (h : svc (mkChargeRequest d) = .ok c) :
    paymentView_post svc d
      = .ok ([{ subject := "Payment received",
                message := "Charge " ++ c.id ++ " succeeded!",
                from_email := "server@example.com",
                recipients := ["admin@example.com"] }],
             .redirect "/")
    ∧ (Response.redirect "/").status = 302 := by
  constructor
  · unfold paymentView_post
    rw [h]
  · rfl

/-- Claim C7 witness: with a charge service answering the identifier
234, the workflow sends the single email whose message reads Charge 234
succeeded followed by an exclamation mark, and redirects to "/". -/
theorem claim_C7_witness :
    paymentView_post (fun _ => Except.ok ⟨"234"⟩) (fun _ => some "123")
      = .ok ([{ subject := "Payment received",
                message := "Charge 234 succeeded!",
                from_email := "server@example.com",
                recipients := ["admin@example.com"] }],
             .redirect "/")
    ∧ (Response.redirect "/").status = 302 :=
  claim_C7 (fun _ => Except.ok ⟨"234"⟩) (fun _ => some "123") ⟨"234"⟩ rfl

/-- Claim C8: when the external charge call fails, the payment workflow
propagates that very failure as a fatal request error: the outcome is
the error itself, never a success value, so no email is sent and no
redirect is returned. -/
theorem claim_C8 (svc : ChargeRequest → Except String Charge)
    (d : String → Option String) (e : String)
    (h : svc (mkChargeRequest d) = .error e) :
    paymentView_post svc d = .error e
    ∧ ∀ (ems : List Email) (r : Response), paymentView_post svc d ≠ .ok (ems, r) := by
  have h1 : paymentView_post svc d = .error e := by
    unfold paymentView_post
    rw [h]
  refine ⟨h1, ?_⟩
  intro ems r hok
  rw [h1] at hok
  simp at hok

/-- Claim C8 witness: a charge service refusing with the message card
declined makes the workflow answer exactly that error. -/
theorem claim_C8_witness :
    paymentView_post (fun _ => Except.error "card declined") (fun _ => some "badtok")
      = .error "card declined" :=
  (claim_C8 (fun _ => Except.error "card declined") (fun _ => some "badtok")
    "card declined" rfl).1
